import Mathlib

/-!
Verification development for the `astro-utils` repository: the grid layout
computation (`astro_utils/visualization.py` and `astro_utils/aia.py`), the
`solocube` frame viewer (`astro_utils/visualization.py`) and the GOES
timeseries fetch (`astro_utils/flare/download.py`), shallowly embedded in
Lean.  Machine arithmetic on pixel counts is exact integer arithmetic in
Python, embedded as `Nat`; true division is embedded as `Rat` division.
-/

namespace AstroUtils

/-- Embedding of `solocube.frame_generator`: the Python generator
`for i, frame in enumerate(data): yield i, frame`, modelled as the list of
`(index, frame)` pairs that it will yield. -/
def frame_generator {α : Type} (data : List α) : List (ℕ × α) :=
  data.enum


/-- State of a `solocube` instance: the owned cube (list of frames), the
generator field (`none` when `self.generator is None`, otherwise the list of
pending yields of the cursor; a cursor that has no pending yields left is
`some []`) and the recorded `self.frame_num`. -/
structure Solocube (α : Type) where
  data : List α
  generator : Option (List (ℕ × α))
  frame_num : Option ℕ
deriving DecidableEq, Repr


/-- Embedding of `solocube.__init__`: `self.generator = None` and
`self.frame_num = None`. -/
def Solocube.init {α : Type} (data : List α) : Solocube α :=
  ⟨data, none, none⟩


/-- Embedding of one call of `solocube.frame_viewer(frame_num=...)`: returns
the updated state together with the yielded `(internal index, frame)` pair
(the internal index is what the code prints as `Internal frame:{i}`; the
frame is the return value), or `none` when the cursor raised
`StopIteration` so that no frame is returned. -/
def Solocube.frame_viewer {α : Type} (v : Solocube α) (frame_num : Option ℕ) :
    Solocube α × Option (ℕ × α) :=
  -- if not frame_num is None: if self.frame_num is None: recreate the generator
  let v1 : Solocube α :=
    match frame_num with
    | some k =>
      match v.frame_num with
      | none => { v with generator := some (frame_generator (v.data.drop k)),
                         frame_num := some k }
      | some _ => v
    | none => v
  -- if self.generator is None: self.generator = self.frame_generator(self.data)
  let v2 : Solocube α :=
    match v1.generator with
    | none => { v1 with generator := some (frame_generator v1.data) }
    | some _ => v1
  -- try: i, frame = next(self.generator) / except StopIteration / else: return frame
  match v2.generator with
  | some [] => (v2, none)
  | some (p :: rest) => ({ v2 with generator := some rest }, some p)
  | none => (v2, none)


/-- A sequence of `frame_viewer` calls, one per entry of `args`; returns the
final state and the list of per-call results. -/
def Solocube.run {α : Type} (v : Solocube α) :
    List (Option ℕ) → Solocube α × List (Option (ℕ × α))
  | [] => (v, [])
  | a :: as =>
    let step := v.frame_viewer a
    let rest := step.1.run as
    (rest.1, step.2 :: rest.2)


/-- The cursor exists and has nothing left to yield: the `Exhausted` state of
the specification (entered, observably, when an advance call hits
`StopIteration`). -/
def Solocube.isExhausted {α : Type} (v : Solocube α) : Prop :=
  v.generator = some []

instance {α : Type} [DecidableEq α] (v : Solocube α) : Decidable v.isExhausted := by
  unfold Solocube.isExhausted; infer_instance


/-- Placement rectangle in figure-fraction coordinates, as passed to
`fig.add_axes([left, bottom, width, height])`. -/
structure Rect where
  left : ℚ
  bottom : ℚ
  width : ℚ
  height : ℚ
deriving DecidableEq, Repr


/-- The body of the placement loop of `plot_image_grid` (and identically of
`plot_aia_image_grid`): the rectangle computed for image index `idx`. -/
def grid_rect (H W cols gap : ℕ) (rows : ℕ) (idx : ℕ) : Rect :=
  let total_width_px : ℕ := cols * W + (cols - 1) * gap
  let total_height_px : ℕ := rows * H + (rows - 1) * gap
  let row := idx / cols
  let col := idx % cols
  let left : ℚ := ((col * (W + gap) : ℕ) : ℚ) / (total_width_px : ℚ)
  let bottom : ℚ := 1 - (((row + 1) * H + row * gap : ℕ) : ℚ) / (total_height_px : ℚ)
  let width : ℚ := (W : ℚ) / (total_width_px : ℚ)
  let height : ℚ := (H : ℚ) / (total_height_px : ℚ)
  ⟨left, bottom, width, height⟩


/-- The geometric output of `plot_image_grid`: row count, total pixel
extent, physical figure size in inches, and the per-image placement
rectangles. -/
structure GridLayout where
  rows : ℕ
  total_width_px : ℕ
  total_height_px : ℕ
  figsize : ℚ × ℚ
  rects : List Rect
deriving DecidableEq, Repr


/-- Embedding of `plot_image_grid` from `astro_utils/visualization.py` for a
cube of `n` images of shape `H` by `W`: `rows = math.ceil(n / cols)`, the
pixel extents and `figsize`, and one `fig.add_axes` rectangle per image
index in `range(n)`.  Rendering itself is the external plotting
collaborator and is not modelled. -/
def plot_image_grid (n H W cols gap : ℕ) (dpi : ℚ) : GridLayout :=
  let rows : ℕ := Nat.ceil ((n : ℚ) / (cols : ℚ))
  let total_width_px : ℕ := cols * W + (cols - 1) * gap
  let total_height_px : ℕ := rows * H + (rows - 1) * gap
  let figsize : ℚ × ℚ :=
    ((total_width_px : ℚ) / dpi, (total_height_px : ℚ) / dpi)
  ⟨rows, total_width_px, total_height_px, figsize,
    (List.range n).map (grid_rect H W cols gap rows)⟩


/-- Embedding of `plot_aia_image_grid` from `astro_utils/aia.py`: it first
runs `assert images.shape[0] == len(passbands)` and only then computes the
same layout as `plot_image_grid` (per-image colormap lookup and rendering
are external collaborators and are not modelled); a failed assertion is the
`Except.error` case and computes no layout. -/
def plot_aia_image_grid (n H W : ℕ) (passbands : List ℕ) (cols gap : ℕ)
    (dpi : ℚ) : Except String GridLayout :=
  if n = passbands.length then
    let rows : ℕ := Nat.ceil ((n : ℚ) / (cols : ℚ))
    let total_width_px : ℕ := cols * W + (cols - 1) * gap
    let total_height_px : ℕ := rows * H + (rows - 1) * gap
    let figsize : ℚ × ℚ :=
      ((total_width_px : ℚ) / dpi, (total_height_px : ℚ) / dpi)
    Except.ok ⟨rows, total_width_px, total_height_px, figsize,
      (List.range n).map (grid_rect H W cols gap rows)⟩
  else
    Except.error "Number of images and passbands must match"


/-- Membership of a point in the pixel-space footprint of a placement
rectangle: `x` runs rightwards from the left canvas edge and `y` runs
downwards from the top canvas edge, both in pixels; the fractional
rectangle is scaled back by the total pixel extent (the `bottom` fraction
measures from the bottom edge, so the top edge of the rectangle sits at
`(1 - bottom - height) * totalHeightPx`). -/
def Rect.pxMem (r : Rect) (tw th x y : ℚ) : Prop :=
  r.left * tw ≤ x ∧ x < r.left * tw + r.width * tw ∧
  (1 - r.bottom - r.height) * th ≤ y ∧
  y < (1 - r.bottom - r.height) * th + r.height * th


/-- Pixel-space area of a placement rectangle, scaled back by the total
pixel extent. -/
def Rect.pxArea (r : Rect) (tw th : ℚ) : ℚ :=
  (r.width * tw) * (r.height * th)


/-- Sum of the pixel-space areas of all placement rectangles of a layout
(since the rectangles are pairwise disjoint this is the area of their
union). -/
def GridLayout.total_rect_px_area (L : GridLayout) : ℚ :=
  (L.rects.map (fun r =>
    r.pxArea (L.total_width_px : ℚ) (L.total_height_px : ℚ))).sum


/-- A Python exception raised inside the `try` block of `fetch_goes_data`;
the bare `except:` clause catches every one of them. -/
inductive PyExc where
  | valueError
  | keyError
  | indexError
  | networkError
deriving DecidableEq, Repr


/-- One row of the `result["xrs"]` search response: the value of its
`SatelliteNumber` column together with the timeseries samples
`(time, flux)` contained in the file that the row points to. -/
structure XrsRow where
  satelliteNumber : ℕ
  series : List (ℕ × ℤ)
deriving DecidableEq, Repr

deriving instance DecidableEq for Except


/-- Modelled environment for the external `sunpy` collaborators used by
`fetch_goes_data`: the outcome of `Fido.search(...)` followed by
`result["xrs"]` (either the response rows or a raised exception), and the
possible failures of `Fido.fetch` and of the concatenating
`ts.TimeSeries(..., concatenate=True)` constructor. -/
structure FidoEnv where
  searchResult : Except PyExc (List XrsRow)
  fetchError : Option PyExc
  concatError : Option PyExc
deriving DecidableEq, Repr


/-- Embedding of `int(np.argmax(...))`: the first index at which the maximal
entry occurs; on an empty sequence `np.argmax` raises `ValueError` (the
empty-search case therefore raises inside the `try` block and is caught). -/
def np_argmax (l : List ℕ) : Except PyExc ℕ :=
  match l with
  | [] => Except.error PyExc.valueError
  | _ :: _ => Except.ok (l.indexOf (l.foldl max 0))


/-- The `SatelliteNumber` column of the response table. -/
def sat_numbers (rows : List XrsRow) : List ℕ :=
  rows.map (fun r => r.satelliteNumber)


/-- The maximal satellite number among the response rows. -/
def max_sat (rows : List XrsRow) : ℕ :=
  (sat_numbers rows).foldl max 0


/-- The value of `satellite_filter_index` for a nonempty response: the first
index attaining the maximal satellite number. -/
def argmax_sat (rows : List XrsRow) : ℕ :=
  (sat_numbers rows).indexOf (max_sat rows)


/-- Embedding of `combined_ts.truncate(start_time, end_time)`: keep the
samples whose time lies in the requested window. -/
def truncate (start_time end_time : ℕ) (series : List (ℕ × ℤ)) :
    List (ℕ × ℤ) :=
  series.filter (fun p => decide (start_time ≤ p.1 ∧ p.1 ≤ end_time))


/-- The body of the `try:` block of `fetch_goes_data`: search, take the
`xrs` block, compute `satellite_filter_index = int(np.argmax(...))`, fetch
the files of the row slice `result[0, satellite_filter_index:]`,
concatenate them into one series and truncate to the requested window. -/
def try_fetch_goes_data (env : FidoEnv) (start_time end_time : ℕ) :
    Except PyExc (List (ℕ × ℤ)) := do
  let responses ← env.searchResult
  let satellite_filter_index ← np_argmax (responses.map (fun r => r.satelliteNumber))
  let rows := responses.drop satellite_filter_index
  let files ← match env.fetchError with
    | some e => Except.error e
    | none => Except.ok (rows.map (fun r => r.series))
  let combined ← match env.concatError with
    | some e => Except.error e
    | none => Except.ok files.flatten
  Except.ok (truncate start_time end_time combined)


/-- Embedding of `fetch_goes_data`: the bare `except:` clause catches any
exception raised in the `try` block and re-raises the single generic
`RuntimeError`, discarding the original cause. -/
def fetch_goes_data (env : FidoEnv) (start_time end_time : ℕ) :
    Except String (List (ℕ × ℤ)) :=
  match try_fetch_goes_data env start_time end_time with
  | Except.ok t => Except.ok t
  | Except.error _ =>
    Except.error "Failed to fetch Satellite data or data does not exist."


/-- Definition following the words of the specification, for comparison with
the code: the data series belonging to the satellite with the highest
identifying number among the results — the rows whose satellite number is
maximal — concatenated. -/
def highest_satellite_series (rows : List XrsRow) : List (ℕ × ℤ) :=
  ((rows.filter (fun r => decide (r.satelliteNumber = max_sat rows))).map
    (fun r => r.series)).flatten


/-- A `frame_viewer` call with no requested index, on a state whose cursor
exists, pulls the head of the pending yields (or reports exhaustion). -/
theorem frame_viewer_cursor_none {α : Type} (data : List α) (l : List (ℕ × α))
    (fn : Option ℕ) :
    Solocube.frame_viewer ⟨data, some l, fn⟩ none =
      match l with
      | [] => (⟨data, some l, fn⟩, none)
      | p :: rest => (⟨data, some rest, fn⟩, some p) := by
  cases l <;> rfl


/-- Once `self.frame_num` is recorded, a requested start index is ignored:
the call behaves exactly like a call with no requested index. -/
theorem frame_viewer_ignores_index {α : Type} (v : Solocube α) (k : ℕ)
    (h : v.frame_num.isSome) :
    v.frame_viewer (some k) = v.frame_viewer none := by
  obtain ⟨data, gen, fn⟩ := v
  cases fn with
  | none => simp [Option.isSome] at h
  | some j => rfl

theorem run_cons {α : Type} (v : Solocube α) (a : Option ℕ)
    (as : List (Option ℕ)) :
    v.run (a :: as) =
      (((v.frame_viewer a).1.run as).1,
        (v.frame_viewer a).2 :: ((v.frame_viewer a).1.run as).2) := rfl


/-- The first `frame_viewer` call on a fresh viewer, with no requested index,
creates the cursor over the whole cube and then behaves like a call on that
cursor. -/
theorem frame_viewer_init_none {α : Type} (data : List α) :
    (Solocube.init data).frame_viewer none =
      Solocube.frame_viewer ⟨data, some (frame_generator data), none⟩ none := rfl


/-- The first `frame_viewer` call on a fresh viewer, with requested index
`k`, creates the cursor over `self.data[k:]`, records `k`, and then behaves
like a no-index call on that cursor. -/
theorem frame_viewer_init_some {α : Type} (data : List α) (k : ℕ) :
    (Solocube.init data).frame_viewer (some k) =
      Solocube.frame_viewer ⟨data, some (frame_generator (data.drop k)), some k⟩
        none := rfl

theorem getElem?_tail {α : Type} (l : List α) (i : ℕ) :
    l.tail[i]? = l[i + 1]? := by
  cases l <;> simp

theorem map_range_getElem?_succ {α : Type} (l : List α) (m : ℕ) :
    (List.range (m + 1)).map (fun i => l[i]?) =
      l[0]? :: (List.range m).map (fun i => l.tail[i]?) := by
  rw [List.range_succ_eq_map, List.map_cons, List.map_map]
  exact congrArg _ (List.map_congr_left fun i _ => by simp [Function.comp, getElem?_tail])


/-- Running any sequence of calls on a state whose cursor exists and whose
start index is recorded consumes one pending yield per call (requested
indices are all ignored). -/
theorem run_cursor_recorded {α : Type} (data : List α) (j : ℕ)
    (args : List (Option ℕ)) (l : List (ℕ × α)) :
    Solocube.run ⟨data, some l, some j⟩ args =
      (⟨data, some (l.drop args.length), some j⟩,
        (List.range args.length).map (fun i => l[i]?)) := by
  induction args generalizing l with
  | nil => simp [Solocube.run]
  | cons a as ih =>
    have ha : Solocube.frame_viewer ⟨data, some l, some j⟩ a =
        Solocube.frame_viewer ⟨data, some l, some j⟩ none := by
      cases a with
      | none => rfl
      | some k => exact frame_viewer_ignores_index _ k rfl
    rw [run_cons, ha, frame_viewer_cursor_none]
    cases l with
    | nil => simp [ih, map_range_getElem?_succ, List.replicate_succ]
    | cons p rest => simp [ih, map_range_getElem?_succ, List.replicate_succ]


/-- Running no-index calls on a state whose cursor exists consumes one
pending yield per call, whatever the recorded start index is. -/
theorem run_cursor_none {α : Type} (data : List α) (fn : Option ℕ) (m : ℕ)
    (l : List (ℕ × α)) :
    Solocube.run ⟨data, some l, fn⟩ (List.replicate m none) =
      (⟨data, some (l.drop m), fn⟩, (List.range m).map (fun i => l[i]?)) := by
  induction m generalizing l with
  | zero => simp [Solocube.run]
  | succ m ih =>
    rw [List.replicate_succ, run_cons, frame_viewer_cursor_none]
    cases l with
    | nil => simp [ih, map_range_getElem?_succ, List.replicate_succ]
    | cons p rest => simp [ih, map_range_getElem?_succ, List.replicate_succ]

theorem map_range_length_getElem? {α : Type} (l : List α) :
    (List.range l.length).map (fun i => l[i]?) = l.map some := by
  induction l with
  | nil => simp
  | cons a l ih =>
    rw [List.length_cons, List.range_succ_eq_map, List.map_cons, List.map_map,
      List.map_cons]
    refine congrArg₂ _ (by simp) ?_
    rw [← ih]
    exact List.map_congr_left fun i _ => by simp [Function.comp]


/-- C3: on an N-frame cube, a fresh viewer advanced N+1 times with no start
index yields exactly the frames at indices 0..N-1 in original order, one
`(index, frame)` pair per call, then the final call yields no frame and the
viewer ends in the `Exhausted` state. -/
theorem claim3_viewer_full_iteration {α : Type} (data : List α) :
    (Solocube.init data).run (List.replicate (data.length + 1) none) =
      (⟨data, some [], none⟩, (frame_generator data).map some ++ [none]) ∧
    Solocube.isExhausted
      ((Solocube.init data).run (List.replicate (data.length + 1) none)).1 := by
  have h1 : List.replicate (data.length + 1) (none : Option ℕ) =
      none :: List.replicate data.length none := List.replicate_succ ..
  have hdrop : (frame_generator data).drop (data.length + 1) = [] :=
    List.drop_eq_nil_of_le (by simp [frame_generator])
  have h2 : (frame_generator data)[data.length]? = none :=
    List.getElem?_eq_none (by simp [frame_generator])
  have h3 : (List.range data.length).map (fun i => (frame_generator data)[i]?) =
      (frame_generator data).map some := by
    rw [show data.length = (frame_generator data).length by simp [frame_generator]]
    exact map_range_length_getElem? _
  have hmap : (List.range (data.length + 1)).map
      (fun i => (frame_generator data)[i]?) =
      (frame_generator data).map some ++ [none] := by
    rw [List.range_succ, List.map_append, List.map_cons, List.map_nil, h2, h3]
  have hrun : (Solocube.init data).run (List.replicate (data.length + 1) none) =
      (⟨data, some [], none⟩, (frame_generator data).map some ++ [none]) := by
    rw [h1, run_cons, frame_viewer_init_none, ← run_cons, ← List.replicate_succ,
      run_cursor_none, hdrop, hmap]
  exact ⟨hrun, by rw [hrun]; rfl⟩


/-- C1 is refuted on the code: a viewer over the cube `[10, 20]` whose cursor
was created by a first advance call with no start index is `Active` (a
cursor exists), yet a subsequent advance call that supplies start index `0`
recreates the cursor (the requested index is honored, not ignored): it
yields frame `10` again, while an advance call with no index would have
yielded frame `20`, and the resulting states differ as well. -/
theorem claim1_counterexample :
    ((Solocube.init [10, 20]).frame_viewer none).1.generator ≠ none ∧
    (((Solocube.init [10, 20]).frame_viewer none).1.frame_viewer (some 0)).2 ≠
      (((Solocube.init [10, 20]).frame_viewer none).1.frame_viewer none).2 ∧
    ((Solocube.init [10, 20]).frame_viewer none).1.frame_viewer (some 0) ≠
      ((Solocube.init [10, 20]).frame_viewer none).1.frame_viewer none := by
  decide


/-- C1 amended: the requested start index is ignored exactly when a start
index is already recorded (`self.frame_num is not None`, which happens iff
the cursor was created by a call that supplied a start index); in that case
an advance call with any requested start index behaves exactly like an
advance call with no start index. -/
theorem claim1_amended {α : Type} (v : Solocube α) (k : ℕ)
    (h : v.frame_num.isSome) :
    v.frame_viewer (some k) = v.frame_viewer none :=
  frame_viewer_ignores_index v k h

theorem claim1_amended_witness :
    ((Solocube.init [10, 20]).frame_viewer (some 1)).1.frame_num.isSome ∧
    ((Solocube.init [10, 20]).frame_viewer (some 1)).1.frame_viewer (some 0) =
      ((Solocube.init [10, 20]).frame_viewer (some 1)).1.frame_viewer none :=
  ⟨by decide, claim1_amended _ 0 (by decide)⟩


/-- C4 is refuted on the code: on the one-frame cube `[10]`, two no-index
advance calls exhaust the cursor, yet a further advance call that supplies
start index `0` recreates the cursor and returns a frame (the viewer moves
back out of `Exhausted`), because no start index was ever recorded. -/
theorem claim4_counterexample :
    ((Solocube.init [10]).run [none, none]).1.isExhausted ∧
    (((Solocube.init [10]).run [none, none]).1.frame_viewer (some 0)).2 ≠
      none := by
  decide


/-- C4 amended: once the cursor is exhausted, an advance call with no start
index reports exhaustion, returns no frame and leaves the state unchanged;
the same holds for advance calls with a requested start index provided a
start index was recorded when the cursor was created, and then no sequence
of advance calls leaves the `Exhausted` state.  When no start index was
recorded, a call supplying one recreates the cursor, as the counterexample
shows. -/
theorem claim4_amended {α : Type} (v : Solocube α) (hex : v.isExhausted) :
    v.frame_viewer none = (v, none) ∧
    (∀ k : ℕ, v.frame_num.isSome → v.frame_viewer (some k) = (v, none)) ∧
    (v.frame_num.isSome →
      ∀ args : List (Option ℕ), v.run args = (v, List.replicate args.length none)) := by
  obtain ⟨data, gen, fn⟩ := v
  have hg : gen = some [] := hex
  subst hg
  have hnone : Solocube.frame_viewer ⟨data, some [], fn⟩ none =
      (⟨data, some [], fn⟩, none) := frame_viewer_cursor_none data [] fn
  refine ⟨hnone, fun k h => ?_, fun h args => ?_⟩
  · rw [frame_viewer_ignores_index _ _ h]; exact hnone
  · induction args with
    | nil => rfl
    | cons a as ih =>
      have ha : Solocube.frame_viewer ⟨data, some [], fn⟩ a =
          (⟨data, some [], fn⟩, none) := by
        cases a with
        | none => exact hnone
        | some k => rw [frame_viewer_ignores_index _ _ h]; exact hnone
      simp [run_cons, ha, ih, List.replicate_succ]

theorem claim4_amended_witness :
    ((Solocube.init [10]).frame_viewer (some 0)).1.isExhausted ∧
    ((Solocube.init [10]).frame_viewer (some 0)).1.frame_viewer none =
      (((Solocube.init [10]).frame_viewer (some 0)).1, none) :=
  ⟨by decide, (claim4_amended _ (by decide)).1⟩


/-- C10: when the first advance call on a fresh viewer supplies a start index
`k < N` then, over any sequence of further advance calls with arbitrary
requested indices, the recorded start index stays `k`, and the j-th call
(for `1 ≤ j`) yields the frame at absolute index `k + j - 1` paired with
the internally reported index `j - 1` (relative to the slice starting at
`k`, not the absolute position in the cube), or no frame once `k + j - 1`
runs past the end of the cube. -/
theorem claim10_start_index_slice {α : Type} (data : List α) (k : ℕ)
    (args : List (Option ℕ)) (j : ℕ) (_hk : k < data.length) (hj1 : 1 ≤ j)
    (hj2 : j ≤ args.length + 1) :
    ((Solocube.init data).run (some k :: args)).1.frame_num = some k ∧
    ((Solocube.init data).run (some k :: args)).2[j - 1]? =
      some ((data[k + j - 1]?).map (fun fr => (j - 1, fr))) := by
  have hrun : (Solocube.init data).run (some k :: args) =
      (⟨data, some ((frame_generator (data.drop k)).drop (args.length + 1)),
          some k⟩,
        (List.range (args.length + 1)).map
          (fun i => (frame_generator (data.drop k))[i]?)) := by
    rw [run_cons, frame_viewer_init_some, ← run_cons, run_cursor_recorded]
    rfl
  refine ⟨by rw [hrun], ?_⟩
  rw [hrun]
  have hj : j - 1 < args.length + 1 := by omega
  rw [List.getElem?_map, List.getElem?_range hj, Option.map_some']
  have : (frame_generator (data.drop k))[j - 1]? =
      ((data.drop k)[j - 1]?).map (fun fr => (j - 1, fr)) :=
    List.getElem?_enum _ _
  rw [this, List.getElem?_drop, show k + (j - 1) = k + j - 1 by omega]


/-- The `math.ceil(n / cols)` of the source, written with exact rational
division, agrees with the rounding-up natural division. -/
theorem ceil_div_eq_add_pred_div (n cols : ℕ) (h : 0 < cols) :
    Nat.ceil ((n : ℚ) / (cols : ℚ)) = (n + cols - 1) / cols := by
  have hc : (0 : ℚ) < (cols : ℚ) := by exact_mod_cast h
  apply le_antisymm
  · rw [Nat.ceil_le, div_le_iff₀ hc]
    have hmod := Nat.div_add_mod (n + cols - 1) cols
    have hlt := Nat.mod_lt (n + cols - 1) h
    have h4 : n ≤ cols * ((n + cols - 1) / cols) := by omega
    have h5 : (n : ℕ) ≤ ((n + cols - 1) / cols) * cols := by
      rw [Nat.mul_comm]; exact h4
    exact_mod_cast h5
  · rw [Nat.div_le_iff_le_mul_add_pred h]
    have h1 : (n : ℚ) / (cols : ℚ) ≤ (Nat.ceil ((n : ℚ) / (cols : ℚ)) : ℚ) :=
      Nat.le_ceil _
    rw [div_le_iff₀ hc] at h1
    have h2 : (n : ℕ) ≤ Nat.ceil ((n : ℚ) / (cols : ℚ)) * cols := by
      exact_mod_cast h1
    rw [Nat.mul_comm cols]
    omega


/-- The row count covers all images: `n` is at most `rows * cols`. -/
theorem rows_mul_cols_ge (n cols : ℕ) (h : 0 < cols) :
    n ≤ Nat.ceil ((n : ℚ) / (cols : ℚ)) * cols := by
  rw [ceil_div_eq_add_pred_div n cols h, Nat.mul_comm]
  have hmod := Nat.div_add_mod (n + cols - 1) cols
  have hlt := Nat.mod_lt (n + cols - 1) h
  omega


/-- C2: for any collection of `n` images of shape `H` by `W` with
`cols ≥ 1`, the layout computes `rows = ceil(n / cols)` (equivalently the
rounding-up natural division), the stated total pixel extent, the physical
canvas size as pixel extent over dpi, and for each image index the stated
rectangle; on the concrete scenario `(3, 10, 10)`, `cols = 2`, `gap = 0`,
`dpi = 100` this gives `rows = 2`, canvas inches `(0.2, 0.2)` and the three
stated rectangles. -/
theorem claim2_grid_layout (n H W cols gap : ℕ) (dpi : ℚ) (hcols : 0 < cols) :
    (plot_image_grid n H W cols gap dpi).rows = Nat.ceil ((n : ℚ) / (cols : ℚ)) ∧
    (plot_image_grid n H W cols gap dpi).rows = (n + cols - 1) / cols ∧
    (plot_image_grid n H W cols gap dpi).total_width_px =
      cols * W + (cols - 1) * gap ∧
    (plot_image_grid n H W cols gap dpi).total_height_px =
      (plot_image_grid n H W cols gap dpi).rows * H +
        ((plot_image_grid n H W cols gap dpi).rows - 1) * gap ∧
    (plot_image_grid n H W cols gap dpi).figsize =
      (((plot_image_grid n H W cols gap dpi).total_width_px : ℚ) / dpi,
        ((plot_image_grid n H W cols gap dpi).total_height_px : ℚ) / dpi) ∧
    (∀ i, i < n →
      (plot_image_grid n H W cols gap dpi).rects[i]? = some
        ⟨((i % cols : ℕ) : ℚ) * ((W : ℚ) + (gap : ℚ)) /
            ((cols * W + (cols - 1) * gap : ℕ) : ℚ),
          1 - ((((i / cols : ℕ) : ℚ) + 1) * (H : ℚ) +
              ((i / cols : ℕ) : ℚ) * (gap : ℚ)) /
            ((Nat.ceil ((n : ℚ) / (cols : ℚ)) * H +
              (Nat.ceil ((n : ℚ) / (cols : ℚ)) - 1) * gap : ℕ) : ℚ),
          (W : ℚ) / ((cols * W + (cols - 1) * gap : ℕ) : ℚ),
          (H : ℚ) / ((Nat.ceil ((n : ℚ) / (cols : ℚ)) * H +
            (Nat.ceil ((n : ℚ) / (cols : ℚ)) - 1) * gap : ℕ) : ℚ)⟩) ∧
    plot_image_grid 3 10 10 2 0 100 =
      ⟨2, 20, 20, (1/5, 1/5),
        [⟨0, 1/2, 1/2, 1/2⟩, ⟨1/2, 1/2, 1/2, 1/2⟩, ⟨0, 0, 1/2, 1/2⟩]⟩ := by
  refine ⟨rfl, ceil_div_eq_add_pred_div n cols hcols, rfl, rfl, rfl, ?_, ?_⟩
  · intro i hi
    show ((List.range n).map (grid_rect H W cols gap _))[i]? = _
    rw [List.getElem?_map, List.getElem?_range hi, Option.map_some']
    congr 1
    simp only [grid_rect]
    rw [Rect.mk.injEq]
    refine ⟨by push_cast; ring, by push_cast; ring, rfl, rfl⟩
  · show plot_image_grid 3 10 10 2 0 100 = _
    unfold plot_image_grid grid_rect
    rw [ceil_div_eq_add_pred_div 3 2 (by norm_num)]
    norm_num [GridLayout.mk.injEq, Rect.mk.injEq, Prod.ext_iff,
      show List.range 3 = [0, 1, 2] from rfl]

theorem claim2_grid_layout_witness :
    0 < 2 ∧ (plot_image_grid 3 10 10 2 0 100).rows = (3 + 2 - 1) / 2 :=
  ⟨by decide, (claim2_grid_layout 3 10 10 2 0 100 (by decide)).2.1⟩

theorem div_double_dpi (a dpi : ℚ) : a / (2 * dpi) = a / dpi / 2 := by
  rw [div_div, mul_comm]


/-- C8: for fixed image count, shape, column count and gap, doubling the dpi
halves both physical canvas dimensions and leaves every placement rectangle
(and the whole pixel-space layout) unchanged. -/
theorem claim8_dpi_scaling (n H W cols gap : ℕ) (dpi : ℚ) (_hdpi : 0 < dpi) :
    (plot_image_grid n H W cols gap (2 * dpi)).figsize.1 =
      (plot_image_grid n H W cols gap dpi).figsize.1 / 2 ∧
    (plot_image_grid n H W cols gap (2 * dpi)).figsize.2 =
      (plot_image_grid n H W cols gap dpi).figsize.2 / 2 ∧
    (plot_image_grid n H W cols gap (2 * dpi)).rects =
      (plot_image_grid n H W cols gap dpi).rects ∧
    (plot_image_grid n H W cols gap (2 * dpi)).rows =
      (plot_image_grid n H W cols gap dpi).rows ∧
    (plot_image_grid n H W cols gap (2 * dpi)).total_width_px =
      (plot_image_grid n H W cols gap dpi).total_width_px ∧
    (plot_image_grid n H W cols gap (2 * dpi)).total_height_px =
      (plot_image_grid n H W cols gap dpi).total_height_px := by
  refine ⟨?_, ?_, rfl, rfl, rfl, rfl⟩
  · exact div_double_dpi ((cols * W + (cols - 1) * gap : ℕ) : ℚ) dpi
  · exact div_double_dpi ((Nat.ceil ((n : ℚ) / (cols : ℚ)) * H +
      (Nat.ceil ((n : ℚ) / (cols : ℚ)) - 1) * gap : ℕ) : ℚ) dpi

theorem claim8_dpi_scaling_witness :
    (0 : ℚ) < 100 ∧
    (plot_image_grid 3 10 10 2 0 (2 * 100)).figsize.1 =
      (plot_image_grid 3 10 10 2 0 100).figsize.1 / 2 :=
  ⟨by norm_num, (claim8_dpi_scaling 3 10 10 2 0 100 (by norm_num)).1⟩


/-- C9: `plot_aia_image_grid` asserts that the image count equals the
passband label count before computing anything: when the counts differ it
fails with the assertion message and computes no layout, and when they
agree the assertion passes and it computes exactly the layout of
`plot_image_grid`. -/
theorem claim9_assert_label_count (n H W : ℕ) (passbands : List ℕ)
    (cols gap : ℕ) (dpi : ℚ) :
    plot_aia_image_grid n H W passbands cols gap dpi =
      if n = passbands.length then
        Except.ok (plot_image_grid n H W cols gap dpi)
      else Except.error "Number of images and passbands must match" := by
  unfold plot_aia_image_grid plot_image_grid
  rfl


/-- Scaled back to pixels, the rectangle of image `idx` occupies exactly the
half-open cell from `col*(W+gap)` (width `W`) and `row*(H+gap)` (height
`H`): the vertical origin flip of `bottom` cancels. -/
theorem grid_rect_pxMem (H W cols gap rows idx : ℕ) (x y : ℚ)
    (htw : ((cols * W + (cols - 1) * gap : ℕ) : ℚ) ≠ 0)
    (hth : ((rows * H + (rows - 1) * gap : ℕ) : ℚ) ≠ 0) :
    (grid_rect H W cols gap rows idx).pxMem
        ((cols * W + (cols - 1) * gap : ℕ) : ℚ)
        ((rows * H + (rows - 1) * gap : ℕ) : ℚ) x y ↔
      ((idx % cols * (W + gap) : ℕ) : ℚ) ≤ x ∧
      x < ((idx % cols * (W + gap) : ℕ) : ℚ) + W ∧
      ((idx / cols * (H + gap) : ℕ) : ℚ) ≤ y ∧
      y < ((idx / cols * (H + gap) : ℕ) : ℚ) + H := by
  have h1 : (grid_rect H W cols gap rows idx).left *
      ((cols * W + (cols - 1) * gap : ℕ) : ℚ) =
      ((idx % cols * (W + gap) : ℕ) : ℚ) := div_mul_cancel₀ _ htw
  have h2 : (grid_rect H W cols gap rows idx).width *
      ((cols * W + (cols - 1) * gap : ℕ) : ℚ) = (W : ℚ) :=
    div_mul_cancel₀ _ htw
  have h4 : (grid_rect H W cols gap rows idx).height *
      ((rows * H + (rows - 1) * gap : ℕ) : ℚ) = (H : ℚ) :=
    div_mul_cancel₀ _ hth
  have h3 : (1 - (grid_rect H W cols gap rows idx).bottom -
        (grid_rect H W cols gap rows idx).height) *
      ((rows * H + (rows - 1) * gap : ℕ) : ℚ) =
      ((idx / cols * (H + gap) : ℕ) : ℚ) := by
    show (1 - (1 - (((idx / cols + 1) * H + idx / cols * gap : ℕ) : ℚ) /
          ((rows * H + (rows - 1) * gap : ℕ) : ℚ)) -
        (H : ℚ) / ((rows * H + (rows - 1) * gap : ℕ) : ℚ)) *
      ((rows * H + (rows - 1) * gap : ℕ) : ℚ) = _
    have hsplit : (1 : ℚ) - (1 - (((idx / cols + 1) * H + idx / cols * gap : ℕ) : ℚ) /
          ((rows * H + (rows - 1) * gap : ℕ) : ℚ)) -
        (H : ℚ) / ((rows * H + (rows - 1) * gap : ℕ) : ℚ) =
        ((((idx / cols + 1) * H + idx / cols * gap : ℕ) : ℚ) - (H : ℚ)) /
          ((rows * H + (rows - 1) * gap : ℕ) : ℚ) := by
      ring
    rw [hsplit, div_mul_cancel₀ _ hth]
    push_cast
    ring
  unfold Rect.pxMem
  rw [h1, h2, h3, h4]


/-- Two cells of the same grid track at positions `a < b` cannot both
contain the coordinate `x`. -/
theorem grid_cells_disjoint (a b L G : ℕ) (hab : a < b) (x : ℚ)
    (h1 : x < ((a * (L + G) : ℕ) : ℚ) + L)
    (h2 : ((b * (L + G) : ℕ) : ℚ) ≤ x) : False := by
  have hnat : a * (L + G) + L ≤ b * (L + G) := by
    calc a * (L + G) + L ≤ a * (L + G) + (L + G) := by omega
    _ = (a + 1) * (L + G) := by ring
    _ ≤ b * (L + G) := Nat.mul_le_mul_right (L + G) hab
  have hq : ((a * (L + G) : ℕ) : ℚ) + (L : ℚ) ≤ ((b * (L + G) : ℕ) : ℚ) := by
    exact_mod_cast hnat
  linarith

theorem rects_getElem?_some (n H W cols gap : ℕ) (dpi : ℚ) (i : ℕ) (r : Rect)
    (h : (plot_image_grid n H W cols gap dpi).rects[i]? = some r) :
    i < n ∧ r = grid_rect H W cols gap (Nat.ceil ((n : ℚ) / (cols : ℚ))) i := by
  have h' : ((List.range n).map (grid_rect H W cols gap
      (Nat.ceil ((n : ℚ) / (cols : ℚ)))))[i]? = some r := h
  rw [List.getElem?_map] at h'
  have hilt : i < n := by
    by_contra hge
    rw [List.getElem?_eq_none (by simpa using Nat.le_of_not_lt hge)] at h'
    simp at h'
  rw [List.getElem?_range hilt, Option.map_some'] at h'
  refine ⟨hilt, ?_⟩
  injection h' with h''
  exact h''.symm


/-- C5 amended: for `n ≥ 1` images of positive shape and `cols ≥ 1`, no two
computed placement rectangles overlap in pixel space, and the sum of their
pixel areas (the area of their union) is `n*W*H`, which equals the full
canvas area minus the unused trailing cells minus the inter-cell gap
strips; the equality of the claim as stated (which subtracts only the
trailing cells) holds when `gap = 0`.  For `gap > 0` the gap strips are
also uncovered, which is what the counterexample exhibits. -/
theorem claim5_amended (n H W cols gap : ℕ) (dpi : ℚ) (hn : 0 < n)
    (hcols : 0 < cols) (hW : 0 < W) (hH : 0 < H) :
    (∀ i j : ℕ, ∀ ri rj : Rect, ∀ x y : ℚ, i ≠ j →
      (plot_image_grid n H W cols gap dpi).rects[i]? = some ri →
      (plot_image_grid n H W cols gap dpi).rects[j]? = some rj →
      ¬(ri.pxMem ((plot_image_grid n H W cols gap dpi).total_width_px : ℚ)
          ((plot_image_grid n H W cols gap dpi).total_height_px : ℚ) x y ∧
        rj.pxMem ((plot_image_grid n H W cols gap dpi).total_width_px : ℚ)
          ((plot_image_grid n H W cols gap dpi).total_height_px : ℚ) x y)) ∧
    (plot_image_grid n H W cols gap dpi).total_rect_px_area = (n : ℚ) * W * H ∧
    n ≤ (plot_image_grid n H W cols gap dpi).rows * cols ∧
    (plot_image_grid n H W cols gap dpi).rows * cols * W * H ≤
      (plot_image_grid n H W cols gap dpi).total_width_px *
        (plot_image_grid n H W cols gap dpi).total_height_px ∧
    (plot_image_grid n H W cols gap dpi).total_rect_px_area =
      (((plot_image_grid n H W cols gap dpi).total_width_px *
          (plot_image_grid n H W cols gap dpi).total_height_px : ℕ) : ℚ) -
        (((plot_image_grid n H W cols gap dpi).rows * cols - n : ℕ) : ℚ) * W * H -
        ((((plot_image_grid n H W cols gap dpi).total_width_px *
            (plot_image_grid n H W cols gap dpi).total_height_px : ℕ) : ℚ) -
          (((plot_image_grid n H W cols gap dpi).rows * cols * W * H : ℕ) : ℚ)) ∧
    (gap = 0 → (plot_image_grid n H W cols gap dpi).total_rect_px_area =
      (((plot_image_grid n H W cols gap dpi).total_width_px *
          (plot_image_grid n H W cols gap dpi).total_height_px : ℕ) : ℚ) -
        (((plot_image_grid n H W cols gap dpi).rows * cols - n : ℕ) : ℚ) * W * H) := by
  have hrowsle : n ≤ Nat.ceil ((n : ℚ) / (cols : ℚ)) * cols :=
    rows_mul_cols_ge n cols hcols
  have hRpos : 0 < Nat.ceil ((n : ℚ) / (cols : ℚ)) := by
    rcases Nat.eq_zero_or_pos (Nat.ceil ((n : ℚ) / (cols : ℚ))) with h | h
    · rw [h] at hrowsle; omega
    · exact h
  have htwpos : 0 < cols * W + (cols - 1) * gap := by
    have := Nat.mul_pos hcols hW; omega
  have hthpos : 0 < Nat.ceil ((n : ℚ) / (cols : ℚ)) * H +
      (Nat.ceil ((n : ℚ) / (cols : ℚ)) - 1) * gap := by
    have := Nat.mul_pos hRpos hH; omega
  have htw : ((cols * W + (cols - 1) * gap : ℕ) : ℚ) ≠ 0 := by
    exact_mod_cast htwpos.ne'
  have hth : ((Nat.ceil ((n : ℚ) / (cols : ℚ)) * H +
      (Nat.ceil ((n : ℚ) / (cols : ℚ)) - 1) * gap : ℕ) : ℚ) ≠ 0 := by
    exact_mod_cast hthpos.ne'
  have harea : ∀ m : ℕ,
      (grid_rect H W cols gap (Nat.ceil ((n : ℚ) / (cols : ℚ))) m).pxArea
        ((cols * W + (cols - 1) * gap : ℕ) : ℚ)
        ((Nat.ceil ((n : ℚ) / (cols : ℚ)) * H +
          (Nat.ceil ((n : ℚ) / (cols : ℚ)) - 1) * gap : ℕ) : ℚ) =
      (W : ℚ) * H := by
    intro m
    show ((W : ℚ) / _ * _) * ((H : ℚ) / _ * _) = _
    rw [div_mul_cancel₀ _ htw, div_mul_cancel₀ _ hth]
  have hsum : (plot_image_grid n H W cols gap dpi).total_rect_px_area =
      (n : ℚ) * W * H := by
    have hmap : (plot_image_grid n H W cols gap dpi).rects.map
        (fun r => r.pxArea
          ((plot_image_grid n H W cols gap dpi).total_width_px : ℚ)
          ((plot_image_grid n H W cols gap dpi).total_height_px : ℚ)) =
        List.replicate n ((W : ℚ) * H) := by
      refine List.eq_replicate_iff.mpr ⟨by simp [plot_image_grid], fun b hb => ?_⟩
      rw [List.mem_map] at hb
      obtain ⟨r, hr, rfl⟩ := hb
      have hr' : r ∈ (List.range n).map (grid_rect H W cols gap
          (Nat.ceil ((n : ℚ) / (cols : ℚ)))) := hr
      rw [List.mem_map] at hr'
      obtain ⟨m, _, rfl⟩ := hr'
      exact harea m
    unfold GridLayout.total_rect_px_area
    rw [hmap, List.sum_replicate, nsmul_eq_mul]
    ring
  refine ⟨?_, hsum, hrowsle, ?_, ?_, ?_⟩
  · intro i j ri rj x y hne hi hj hmem
    obtain ⟨hilt, rfl⟩ := rects_getElem?_some n H W cols gap dpi i ri hi
    obtain ⟨hjlt, rfl⟩ := rects_getElem?_some n H W cols gap dpi j rj hj
    obtain ⟨hmi, hmj⟩ := hmem
    have hmi' : ((i % cols * (W + gap) : ℕ) : ℚ) ≤ x ∧
        x < ((i % cols * (W + gap) : ℕ) : ℚ) + W ∧
        ((i / cols * (H + gap) : ℕ) : ℚ) ≤ y ∧
        y < ((i / cols * (H + gap) : ℕ) : ℚ) + H :=
      (grid_rect_pxMem H W cols gap _ i x y htw hth).mp hmi
    have hmj' : ((j % cols * (W + gap) : ℕ) : ℚ) ≤ x ∧
        x < ((j % cols * (W + gap) : ℕ) : ℚ) + W ∧
        ((j / cols * (H + gap) : ℕ) : ℚ) ≤ y ∧
        y < ((j / cols * (H + gap) : ℕ) : ℚ) + H :=
      (grid_rect_pxMem H W cols gap _ j x y htw hth).mp hmj
    by_cases hc : i % cols = j % cols
    · have hrne : i / cols ≠ j / cols := by
        intro hdiv
        have hi2 := Nat.div_add_mod i cols
        have hj2 := Nat.div_add_mod j cols
        rw [hdiv, hc] at hi2
        exact hne (by omega)
      rcases Nat.lt_or_ge (i / cols) (j / cols) with hlt | hge
      · exact grid_cells_disjoint _ _ H gap hlt y hmi'.2.2.2 hmj'.2.2.1
      · have hlt : j / cols < i / cols := by omega
        exact grid_cells_disjoint _ _ H gap hlt y hmj'.2.2.2 hmi'.2.2.1
    · rcases Nat.lt_or_ge (i % cols) (j % cols) with hlt | hge
      · exact grid_cells_disjoint _ _ W gap hlt x hmi'.2.1 hmj'.1
      · have hlt : j % cols < i % cols := by omega
        exact grid_cells_disjoint _ _ W gap hlt x hmj'.2.1 hmi'.1
  · show Nat.ceil ((n : ℚ) / (cols : ℚ)) * cols * W * H ≤
      (cols * W + (cols - 1) * gap) *
        (Nat.ceil ((n : ℚ) / (cols : ℚ)) * H +
          (Nat.ceil ((n : ℚ) / (cols : ℚ)) - 1) * gap)
    calc Nat.ceil ((n : ℚ) / (cols : ℚ)) * cols * W * H
        = (cols * W) * (Nat.ceil ((n : ℚ) / (cols : ℚ)) * H) := by ring
      _ ≤ (cols * W + (cols - 1) * gap) *
            (Nat.ceil ((n : ℚ) / (cols : ℚ)) * H +
              (Nat.ceil ((n : ℚ) / (cols : ℚ)) - 1) * gap) :=
          Nat.mul_le_mul (Nat.le_add_right _ _) (Nat.le_add_right _ _)
  · rw [hsum]
    show (n : ℚ) * W * H =
      (((cols * W + (cols - 1) * gap) *
          (Nat.ceil ((n : ℚ) / (cols : ℚ)) * H +
            (Nat.ceil ((n : ℚ) / (cols : ℚ)) - 1) * gap) : ℕ) : ℚ) -
        ((Nat.ceil ((n : ℚ) / (cols : ℚ)) * cols - n : ℕ) : ℚ) * W * H -
        ((((cols * W + (cols - 1) * gap) *
            (Nat.ceil ((n : ℚ) / (cols : ℚ)) * H +
              (Nat.ceil ((n : ℚ) / (cols : ℚ)) - 1) * gap) : ℕ) : ℚ) -
          ((Nat.ceil ((n : ℚ) / (cols : ℚ)) * cols * W * H : ℕ) : ℚ))
    push_cast [Nat.cast_sub hrowsle]
    ring
  · intro hgap
    rw [hsum]
    show (n : ℚ) * W * H =
      (((cols * W + (cols - 1) * gap) *
          (Nat.ceil ((n : ℚ) / (cols : ℚ)) * H +
            (Nat.ceil ((n : ℚ) / (cols : ℚ)) - 1) * gap) : ℕ) : ℚ) -
        ((Nat.ceil ((n : ℚ) / (cols : ℚ)) * cols - n : ℕ) : ℚ) * W * H
    subst hgap
    push_cast [Nat.cast_sub hrowsle]
    ring

theorem claim5_amended_witness :
    0 < 3 ∧ 0 < 2 ∧ 0 < 10 ∧
    (plot_image_grid 3 10 10 2 0 100).total_rect_px_area =
      ((3 : ℕ) : ℚ) * ((10 : ℕ) : ℚ) * ((10 : ℕ) : ℚ) :=
  ⟨by decide, by decide, by decide,
    (claim5_amended 3 10 10 2 0 100 (by decide) (by decide) (by decide)
      (by decide)).2.1⟩


/-- C5 as stated is refuted on the code when `gap > 0`: for one image of
shape `1` by `1` with `cols = 2` and `gap = 1`, the single rectangle has
pixel area `1`, while the canvas area (`3`) minus the one unused trailing
cell (`1`) is `2` — the vertical gap strip between the two cells of the
row is covered by no rectangle, so the stated equality fails. -/
theorem claim5_counterexample :
    (plot_image_grid 1 1 1 2 1 1).total_rect_px_area = 1 ∧
    (plot_image_grid 1 1 1 2 1 1).total_width_px *
      (plot_image_grid 1 1 1 2 1 1).total_height_px = 3 ∧
    (plot_image_grid 1 1 1 2 1 1).rows * 2 - 1 = 1 ∧
    (plot_image_grid 1 1 1 2 1 1).total_rect_px_area ≠
      (((plot_image_grid 1 1 1 2 1 1).total_width_px *
          (plot_image_grid 1 1 1 2 1 1).total_height_px : ℕ) : ℚ) -
        (((plot_image_grid 1 1 1 2 1 1).rows * 2 - 1 : ℕ) : ℚ) * 1 * 1 := by
  have hL : plot_image_grid 1 1 1 2 1 1 = ⟨1, 3, 1, (3, 1), [⟨0, 0, 1/3, 1⟩]⟩ := by
    unfold plot_image_grid grid_rect
    rw [ceil_div_eq_add_pred_div 1 2 (by norm_num)]
    norm_num [GridLayout.mk.injEq, Rect.mk.injEq, Prod.ext_iff,
      show List.range 1 = [0] from rfl]
  rw [hL]
  refine ⟨?_, by norm_num, by norm_num, ?_⟩ <;>
    norm_num [GridLayout.total_rect_px_area, Rect.pxArea]

theorem claim10_start_index_slice_witness :
    1 < ([10, 20, 30] : List ℕ).length ∧ 1 ≤ 2 ∧ 2 ≤ [none, some 0, none].length + 1 ∧
    (((Solocube.init [10, 20, 30]).run
        (some 1 :: [none, some 0, none])).1.frame_num = some 1 ∧
      ((Solocube.init [10, 20, 30]).run
          (some 1 :: [none, some 0, none])).2[2 - 1]? =
        some ((([10, 20, 30] : List ℕ)[1 + 2 - 1]?).map (fun fr => (2 - 1, fr)))) :=
  ⟨by decide, by decide, by decide,
    claim10_start_index_slice [10, 20, 30] 1 [none, some 0, none] 2 (by decide)
      (by decide) (by decide)⟩


theorem seed_le_foldl_max (l : List ℕ) (a : ℕ) : a ≤ l.foldl max a := by
  induction l generalizing a with
  | nil => exact le_refl a
  | cons b t ih => exact le_trans (le_max_left a b) (ih (max a b))

theorem le_foldl_max (l : List ℕ) (a : ℕ) : ∀ x ∈ l, x ≤ l.foldl max a := by
  induction l generalizing a with
  | nil => intro x hx; cases hx
  | cons b t ih =>
    intro x hx
    rcases List.mem_cons.mp hx with rfl | hxt
    · exact le_trans (le_max_right a x) (seed_le_foldl_max t (max a x))
    · exact ih (max a b) x hxt

theorem foldl_max_eq_or_mem (l : List ℕ) (a : ℕ) :
    l.foldl max a = a ∨ l.foldl max a ∈ l := by
  induction l generalizing a with
  | nil => exact Or.inl rfl
  | cons b t ih =>
    rcases ih (max a b) with h | h
    · rcases max_choice a b with hab | hab
      · rw [List.foldl_cons, h, hab]
        exact Or.inl rfl
      · rw [List.foldl_cons, h, hab]
        exact Or.inr (List.mem_cons_self b t)
    · exact Or.inr (List.mem_cons_of_mem b h)

theorem foldl_max_zero_mem (l : List ℕ) (h : l ≠ []) : l.foldl max 0 ∈ l := by
  rcases foldl_max_eq_or_mem l 0 with h0 | hm
  · cases l with
    | nil => exact absurd rfl h
    | cons b t =>
      have hb : b ≤ (b :: t).foldl max 0 :=
        le_foldl_max (b :: t) 0 b (List.mem_cons_self b t)
      rw [h0] at hb
      have hb0 : b = 0 := Nat.le_zero.mp hb
      rw [h0, ← hb0]
      exact List.mem_cons_self b t
  · exact hm

theorem getElem?_lt_indexOf_ne (l : List ℕ) (m jj : ℕ)
    (hjj : jj < l.indexOf m) (v : ℕ) (hv : l[jj]? = some v) : v ≠ m := by
  induction l generalizing jj with
  | nil => simp at hv
  | cons b t ih =>
    by_cases hb : b = m
    · rw [List.indexOf_cons_eq t hb] at hjj
      omega
    · rw [List.indexOf_cons_ne t hb] at hjj
      cases jj with
      | zero =>
        have hbv : b = v := by simpa using hv
        rw [← hbv]
        exact hb
      | succ jj' =>
        exact ih jj' (by omega) (by simpa using hv)


/-- C6: every failure inside the GOES fetch surfaces as the single generic
fetch-failure error with a fixed message, discarding the original cause; in
particular a search that returns zero matches raises inside the `try` block
(`np.argmax` of an empty sequence) and is converted to the same generic
error rather than escaping as an out-of-range fault. -/
theorem claim6_fetch_error_generic (env : FidoEnv) (start_time end_time : ℕ) :
    (∀ msg, fetch_goes_data env start_time end_time = Except.error msg →
      msg = "Failed to fetch Satellite data or data does not exist.") ∧
    (env.searchResult = Except.ok [] →
      fetch_goes_data env start_time end_time =
        Except.error "Failed to fetch Satellite data or data does not exist.") := by
  constructor
  · intro msg h
    cases htry : try_fetch_goes_data env start_time end_time with
    | ok t => simp [fetch_goes_data, htry] at h
    | error e =>
      simp [fetch_goes_data, htry] at h
      exact h.symm
  · intro hempty
    obtain ⟨sr, fe, ce⟩ := env
    have hsr : sr = Except.ok [] := hempty
    subst hsr
    rfl

theorem claim6_fetch_error_generic_witness :
    (⟨Except.ok [], none, none⟩ : FidoEnv).searchResult = Except.ok [] ∧
    fetch_goes_data ⟨Except.ok [], none, none⟩ 0 10 =
      Except.error "Failed to fetch Satellite data or data does not exist." :=
  ⟨rfl, (claim6_fetch_error_generic ⟨Except.ok [], none, none⟩ 0 10).2 rfl⟩


/-- C7 is refuted on the code: with response rows for satellites `31` and
`16` (in that order), `np.argmax` selects index `0` and the row slice
`result[0, 0:]` covers both rows, so the code downloads and concatenates
the series of both satellites — not exactly the series of the
highest-numbered satellite `31`, which (concatenated and truncated) would
be `[(5, 1)]`. -/
theorem claim7_counterexample :
    fetch_goes_data ⟨Except.ok [⟨31, [(5, 1)]⟩, ⟨16, [(6, 2)]⟩], none, none⟩ 0 10 =
      Except.ok [(5, 1), (6, 2)] ∧
    truncate 0 10 (highest_satellite_series [⟨31, [(5, 1)]⟩, ⟨16, [(6, 2)]⟩]) =
      [(5, 1)] ∧
    ([(5, 1), (6, 2)] : List (ℕ × ℤ)) ≠ [(5, 1)] := by
  refine ⟨rfl, rfl, by decide⟩

/-- C7 amended: when the search returns one or more rows and download and
concatenation succeed, the fetch downloads the rows from the first index
attaining the maximal satellite number through the end of the results,
concatenates their series in order and truncates to the requested window;
the selected index holds the maximal satellite number and every earlier row
has a strictly smaller number.  When the maximum sits in the last row (for
example when results are sorted ascending by satellite number, as in the
concrete sorted scenario also proved here) this is exactly the series of
the highest-numbered satellite. -/
theorem claim7_amended (env : FidoEnv) (start_time end_time : ℕ)
    (rows : List XrsRow) (hrows : env.searchResult = Except.ok rows)
    (hne : rows ≠ []) (hfetch : env.fetchError = none)
    (hconcat : env.concatError = none) :
    fetch_goes_data env start_time end_time =
      Except.ok (truncate start_time end_time
        (((rows.drop (argmax_sat rows)).map (fun r => r.series)).flatten)) ∧
    (sat_numbers rows)[argmax_sat rows]? = some (max_sat rows) ∧
    (∀ jj, jj < argmax_sat rows → ∀ v, (sat_numbers rows)[jj]? = some v →
      v < max_sat rows) ∧
    fetch_goes_data ⟨Except.ok [⟨16, [(6, 2)]⟩, ⟨31, [(5, 1)]⟩], none, none⟩ 0 10 =
      Except.ok [(5, 1)] ∧
    truncate 0 10 (highest_satellite_series [⟨16, [(6, 2)]⟩, ⟨31, [(5, 1)]⟩]) =
      [(5, 1)] := by
  have hsatne : sat_numbers rows ≠ [] := by
    simp only [sat_numbers, ne_eq, List.map_eq_nil_iff]
    exact hne
  have hmem : max_sat rows ∈ sat_numbers rows := foldl_max_zero_mem _ hsatne
  have hidx : argmax_sat rows < (sat_numbers rows).length :=
    List.indexOf_lt_length.mpr hmem
  refine ⟨?_, ?_, ?_, rfl, rfl⟩
  · obtain ⟨sr, fe, ce⟩ := env
    have hsr : sr = Except.ok rows := hrows
    have hfe : fe = none := hfetch
    have hce : ce = none := hconcat
    subst hsr; subst hfe; subst hce
    cases rows with
    | nil => exact absurd rfl hne
    | cons r rs => rfl
  · rw [List.getElem?_eq_getElem hidx]
    exact congrArg some (List.getElem_indexOf hidx)
  · intro jj hjj v hv
    have hle : v ≤ max_sat rows :=
      le_foldl_max (sat_numbers rows) 0 v (List.getElem?_mem hv)
    have hvne : v ≠ max_sat rows :=
      getElem?_lt_indexOf_ne (sat_numbers rows) (max_sat rows) jj hjj v hv
    omega

theorem claim7_amended_witness :
    (⟨Except.ok [⟨31, [(5, 1)]⟩, ⟨16, [(6, 2)]⟩], none, none⟩ :
        FidoEnv).searchResult =
      Except.ok [⟨31, [(5, 1)]⟩, ⟨16, [(6, 2)]⟩] ∧
    ([⟨31, [(5, 1)]⟩, ⟨16, [(6, 2)]⟩] : List XrsRow) ≠ [] ∧
    (⟨Except.ok [⟨31, [(5, 1)]⟩, ⟨16, [(6, 2)]⟩], none, none⟩ :
        FidoEnv).fetchError = none ∧
    (⟨Except.ok [⟨31, [(5, 1)]⟩, ⟨16, [(6, 2)]⟩], none, none⟩ :
        FidoEnv).concatError = none ∧
    fetch_goes_data ⟨Except.ok [⟨31, [(5, 1)]⟩, ⟨16, [(6, 2)]⟩], none, none⟩
        0 10 =
      Except.ok (truncate 0 10
        ((([⟨31, [(5, 1)]⟩, ⟨16, [(6, 2)]⟩] : List XrsRow).drop
            (argmax_sat [⟨31, [(5, 1)]⟩, ⟨16, [(6, 2)]⟩])).map
          (fun r => r.series)).flatten) :=
  ⟨rfl, by decide, rfl, rfl,
    (claim7_amended ⟨Except.ok [⟨31, [(5, 1)]⟩, ⟨16, [(6, 2)]⟩], none, none⟩
      0 10 [⟨31, [(5, 1)]⟩, ⟨16, [(6, 2)]⟩] rfl (by decide) rfl rfl).1⟩

end AstroUtils
